import Mathlib

/-!
Shallow embedding of the GPS tracking and derived-metrics engine of the
`runna` repository (`src/hooks/useStrava.ts`, hook `useGPSTracking`, together
with the zustand run store `useRunStore`).  JavaScript `number`s are modelled
as real numbers; `number | null` fields become `Option ℝ`; timestamps
(milliseconds) become `ℤ`.  Division by zero follows Lean's convention
`x / 0 = 0`.
-/

open Real

noncomputable section

namespace Runna

/-- JavaScript `Math.atan2 y x` (real-valued model; there is no signed zero,
so `atan2 0 0 = 0`). -/
def atan2 (y x : ℝ) : ℝ :=
  if 0 < x then Real.arctan (y / x)
  else if x < 0 then
    (if 0 ≤ y then Real.arctan (y / x) + Real.pi else Real.arctan (y / x) - Real.pi)
  else
    (if 0 < y then Real.pi / 2 else if y < 0 then -(Real.pi / 2) else 0)

/-- `LocationPoint` from `src/unnamed/part_010` (types module): one GPS fix. -/
structure LocationPoint where
  latitude : ℝ
  longitude : ℝ
  altitude : Option ℝ := none
  speed : Option ℝ := none
  heading : Option ℝ := none
  accuracy : Option ℝ := none
  timestamp : ℤ := 0
deriving Inhabited

/-- `GPSMetrics` from `src/unnamed/part_010`: the published metrics snapshot. -/
structure GPSMetrics where
  currentSpeed : ℝ
  currentPace : ℝ
  averageSpeed : ℝ
  averagePace : ℝ
  totalDistance : ℝ
  currentLocation : Option LocationPoint

/-- `calculateDistance` from `src/hooks/useStrava.ts` (Haversine formula,
Earth radius `6371e3` m). -/
def calculateDistance (p1 p2 : LocationPoint) : ℝ :=
  let R : ℝ := 6371e3
  let phi1 := p1.latitude * Real.pi / 180
  let phi2 := p2.latitude * Real.pi / 180
  let dphi := (p2.latitude - p1.latitude) * Real.pi / 180
  let dlam := (p2.longitude - p1.longitude) * Real.pi / 180
  let a :=
    Real.sin (dphi / 2) * Real.sin (dphi / 2) +
      Real.cos phi1 * Real.cos phi2 * Real.sin (dlam / 2) * Real.sin (dlam / 2)
  let c := 2 * atan2 (Real.sqrt a) (Real.sqrt (1 - a))
  R * c

/-- `calculateTotalDistance` from `src/hooks/useStrava.ts`: `0` for fewer than
two points, otherwise the loop `for i in [1, n): total += distance(p[i-1], p[i])`,
written as a sum over the index range. -/
def calculateTotalDistance (points : List LocationPoint) : ℝ :=
  if points.length < 2 then 0
  else ((List.range (points.length - 1)).map fun i =>
    calculateDistance (points.getD i default) (points.getD (i + 1) default)).sum

/-- `calculatePace` from `src/hooks/useStrava.ts`: `0` acts as the
"undefined pace" sentinel for non-positive speed. -/
def calculatePace (speedMps : ℝ) : ℝ :=
  if speedMps ≤ 0 then 0
  else
    let speedKmh := speedMps * 3.6
    60 / speedKmh

/-- The value the code publishes for an undefined pace (`calculatePace`
returns `0` and the UI renders a pace of `0` as not available). -/
def paceUndefined : ℝ := 0

/-- `calculateAverageMetrics` from `src/hooks/useStrava.ts`; the `points`
argument is taken but unused, as in the source.  Returns
`(avgSpeedKmh, avgPaceMinPerKm)`. -/
def calculateAverageMetrics (_points : List LocationPoint) (totalDistance : ℝ)
    (duration : ℝ) : ℝ × ℝ :=
  if duration = 0 ∨ totalDistance = 0 then (0, 0)
  else
    let avgSpeedMps := totalDistance / duration
    let avgSpeedKmh := avgSpeedMps * 3.6
    let avgPace := 60 / avgSpeedKmh
    (avgSpeedKmh, avgPace)

/-- Structural pairwise Haversine sum over consecutive points; proved equal to
`calculateTotalDistance` below and used as the induction-friendly form. -/
def pairSum : List LocationPoint → ℝ
  | [] => 0
  | [_] => 0
  | a :: b :: rest => calculateDistance a b + pairSum (b :: rest)

theorem pairSum_nil : pairSum [] = 0 := rfl

theorem pairSum_singleton (p : LocationPoint) : pairSum [p] = 0 := rfl

theorem pairSum_cons_cons (a b : LocationPoint) (l : List LocationPoint) :
    pairSum (a :: b :: l) = calculateDistance a b + pairSum (b :: l) := rfl

theorem calculateTotalDistance_eq_pairSum (points : List LocationPoint) :
    calculateTotalDistance points = pairSum points := by
  match points with
  | [] => simp [calculateTotalDistance, pairSum]
  | [p] => simp [calculateTotalDistance, pairSum]
  | a :: b :: rest =>
    induction rest generalizing a b with
    | nil => simp [calculateTotalDistance, pairSum, List.range_succ]
    | cons c rest ih =>
      have hlen : (a :: b :: c :: rest).length - 1 = (b :: c :: rest).length - 1 + 1 := by
        simp
      rw [calculateTotalDistance, pairSum, ← ih b c]
      rw [calculateTotalDistance]
      have h2 : ¬ (a :: b :: c :: rest).length < 2 := by simp
      have h2' : ¬ (b :: c :: rest).length < 2 := by simp
      rw [if_neg h2, if_neg h2', hlen, List.range_succ_eq_map]
      simp [List.map_map, Function.comp_def, List.getD_cons_succ]

theorem atan2_nonneg {y x : ℝ} (hy : 0 ≤ y) : 0 ≤ atan2 y x := by
  have hpi := Real.pi_pos
  rcases lt_trichotomy x 0 with hx | hx | hx
  · rw [atan2, if_neg (by linarith), if_pos hx, if_pos hy]
    have := Real.neg_pi_div_two_lt_arctan (y / x)
    linarith
  · subst hx
    rw [atan2, if_neg (lt_irrefl 0), if_neg (lt_irrefl 0)]
    rcases eq_or_lt_of_le hy with h | h
    · rw [← h]; simp
    · rw [if_pos h]; positivity
  · rw [atan2, if_pos hx]
    have h0 : Real.arctan 0 ≤ Real.arctan (y / x) :=
      Real.arctan_strictMono.monotone (div_nonneg hy hx.le)
    simpa using h0

theorem atan2_zero_of_pos {x : ℝ} (hx : 0 < x) : atan2 0 x = 0 := by
  simp [atan2, hx]

theorem calculateDistance_self (p : LocationPoint) : calculateDistance p p = 0 := by
  unfold calculateDistance
  simp [atan2_zero_of_pos, Real.sqrt_zero]

theorem calculateDistance_nonneg (p q : LocationPoint) :
    0 ≤ calculateDistance p q := by
  unfold calculateDistance
  have h := atan2_nonneg (y := Real.sqrt (Real.sin ((q.latitude - p.latitude) * Real.pi / 180 / 2) *
      Real.sin ((q.latitude - p.latitude) * Real.pi / 180 / 2) +
      Real.cos (p.latitude * Real.pi / 180) * Real.cos (q.latitude * Real.pi / 180) *
      Real.sin ((q.longitude - p.longitude) * Real.pi / 180 / 2) *
      Real.sin ((q.longitude - p.longitude) * Real.pi / 180 / 2)))
      (x := Real.sqrt (1 - (Real.sin ((q.latitude - p.latitude) * Real.pi / 180 / 2) *
      Real.sin ((q.latitude - p.latitude) * Real.pi / 180 / 2) +
      Real.cos (p.latitude * Real.pi / 180) * Real.cos (q.latitude * Real.pi / 180) *
      Real.sin ((q.longitude - p.longitude) * Real.pi / 180 / 2) *
      Real.sin ((q.longitude - p.longitude) * Real.pi / 180 / 2))))
      (Real.sqrt_nonneg _)
  positivity

theorem pairSum_append (l : List LocationPoint) (p : LocationPoint) :
    pairSum (l ++ [p]) =
      pairSum l + (l.getLast?.elim 0 fun q => calculateDistance q p) := by
  match l with
  | [] => simp [pairSum]
  | [a] => simp [pairSum]
  | a :: b :: rest =>
    have ih := pairSum_append (b :: rest) p
    simp only [List.cons_append, pairSum_cons_cons] at ih ⊢
    rw [ih, List.getLast?_cons_cons]
    ring

theorem pairSum_nonneg (l : List LocationPoint) : 0 ≤ pairSum l := by
  match l with
  | [] => exact le_refl 0
  | [_] => exact le_refl 0
  | a :: b :: rest =>
    have ih := pairSum_nonneg (b :: rest)
    have := calculateDistance_nonneg a b
    rw [pairSum_cons_cons]
    linarith

theorem pairSum_le_append (l : List LocationPoint) (p : LocationPoint) :
    pairSum l ≤ pairSum (l ++ [p]) := by
  rw [pairSum_append]
  match h : l.getLast? with
  | none => simp
  | some q => simpa using calculateDistance_nonneg q p

theorem pairSum_concat_last (l : List LocationPoint) (p : LocationPoint) :
    pairSum ((l ++ [p]) ++ [p]) = pairSum (l ++ [p]) := by
  rw [pairSum_append (l ++ [p]) p]
  simp [List.getLast?_concat, calculateDistance_self]

/-- `LocationPermissionStatus` from `src/unnamed/part_010`. -/
inductive LocationPermissionStatus
  | granted
  | denied
  | undetermined
deriving DecidableEq

/-- The run-store slice mutated by the GPS tracking hook (`useRunStore`,
`src/unnamed/part_007`); fields not touched by the tracking code are omitted. -/
structure RunStore where
  isRunning : Bool
  runStartTime : Option ℤ
  runDistance : ℝ
  runDuration : ℤ
  gpsMetrics : GPSMetrics
  routePoints : List LocationPoint
  locationPermission : LocationPermissionStatus
  gpsError : Option String

/-- The metrics object written by `clearRoute` (and by `initialState`) in
`src/unnamed/part_007`: everything zero, no current location. -/
def zeroMetrics : GPSMetrics :=
  { currentSpeed := 0, currentPace := 0, averageSpeed := 0, averagePace := 0
    totalDistance := 0, currentLocation := none }

/-- Store action `addRoutePoint` (`src/unnamed/part_007`). -/
def addRoutePoint (point : LocationPoint) (s : RunStore) : RunStore :=
  { s with routePoints := s.routePoints ++ [point] }

/-- Store action `setGPSMetrics` (`src/unnamed/part_007`). -/
def setGPSMetrics (m : GPSMetrics) (s : RunStore) : RunStore :=
  { s with gpsMetrics := m }

/-- Store action `setLocationPermission` (`src/unnamed/part_007`). -/
def setLocationPermission (st : LocationPermissionStatus) (s : RunStore) : RunStore :=
  { s with locationPermission := st }

/-- Store action `setGPSError` (`src/unnamed/part_007`). -/
def setGPSError (e : Option String) (s : RunStore) : RunStore :=
  { s with gpsError := e }

/-- Store action `clearRoute` (`src/unnamed/part_007`). -/
def clearRoute (s : RunStore) : RunStore :=
  { s with routePoints := [], gpsMetrics := zeroMetrics }

/-- Store action `updateRunStats` (`src/unnamed/part_007`). -/
def updateRunStats (d : ℝ) (t : ℤ) (s : RunStore) : RunStore :=
  { s with runDistance := d, runDuration := t }

/-- The GPS-relevant slice of the store's `initialState`
(`src/unnamed/part_007`). -/
def initialState : RunStore :=
  { isRunning := false, runStartTime := none, runDistance := 0, runDuration := 0
    gpsMetrics := zeroMetrics, routePoints := []
    locationPermission := LocationPermissionStatus.undetermined, gpsError := none }

/-- Combined state of the `useGPSTracking` hook: the store plus the hook's
refs.  `hasSubscription` models `subscriptionRef.current !== null`;
`subscriptionsCreated` instruments the model by counting every
`Location.watchPositionAsync` call, so "no subscription side effect" is the
statement that this counter does not change. -/
structure TrackingState where
  store : RunStore
  isTracking : Bool
  hasSubscription : Bool
  subscriptionsCreated : ℕ
  lastPoint : Option LocationPoint

/-- Outcome of the platform permission environment as observed by
`requestPermissions`: location services disabled, permission granted,
permission denied (with the OS `canAskAgain` bit), or a thrown error. -/
inductive PermissionOutcome
  | servicesDisabled
  | granted
  | denied (canAskAgain : Bool)
  | requestThrows
deriving DecidableEq

/-- `requestPermissions` from `src/hooks/useStrava.ts`: returns the success
flag together with the updated store (alert presentation is UI-only and not
modelled). -/
def requestPermissions (env : PermissionOutcome) (s : RunStore) : Bool × RunStore :=
  match env with
  | PermissionOutcome.servicesDisabled =>
      (false, setLocationPermission LocationPermissionStatus.denied
        (setGPSError (some "Location services are disabled") s))
  | PermissionOutcome.granted =>
      (true, setGPSError none
        (setLocationPermission LocationPermissionStatus.granted s))
  | PermissionOutcome.denied _ =>
      (false, setGPSError (some "Location permission denied")
        (setLocationPermission LocationPermissionStatus.denied s))
  | PermissionOutcome.requestThrows =>
      (false, setLocationPermission LocationPermissionStatus.denied
        (setGPSError (some "Failed to request location permission") s))

/-- `Math.floor((Date.now() - store.runStartTime.getTime()) / 1000)` with a
`0` default when `runStartTime` is unset, as in `handleLocationUpdate`. -/
def elapsedSeconds (now : ℤ) (runStartTime : Option ℤ) : ℤ :=
  match runStartTime with
  | some t0 => Int.fdiv (now - t0) 1000
  | none => 0

/-- `handleLocationUpdate` from `src/hooks/useStrava.ts`.  Note the source
appends `point` to the store via `addRoutePoint` and then builds
`currentPoints = [...store.routePoints, point]` from the already-updated
store, so `point` occurs twice at the end of `currentPoints`. -/
def handleLocationUpdate (now : ℤ) (point : LocationPoint)
    (s : TrackingState) : TrackingState :=
  let store1 := addRoutePoint point s.store
  let currentPoints := store1.routePoints ++ [point]
  let totalDistance := calculateTotalDistance currentPoints
  let currentSpeedMps := point.speed.getD 0
  let currentSpeedKmh := max 0 (currentSpeedMps * 3.6)
  let currentPace := if 0 < currentSpeedMps then calculatePace currentSpeedMps else 0
  let duration := elapsedSeconds now store1.runStartTime
  let avg := calculateAverageMetrics currentPoints totalDistance (duration : ℝ)
  let metrics : GPSMetrics :=
    { currentSpeed := currentSpeedKmh, currentPace := currentPace
      averageSpeed := avg.1, averagePace := avg.2
      totalDistance := totalDistance, currentLocation := some point }
  let store2 := setGPSMetrics metrics store1
  let store3 := updateRunStats totalDistance duration store2
  { s with store := store3, lastPoint := some point }

/-- `startTracking` from `src/hooks/useStrava.ts`.  `env` is the permission
environment; `watchOk` is whether `Location.watchPositionAsync` succeeds
(when it throws, no subscription is assigned and the catch branch runs). -/
def startTracking (env : PermissionOutcome) (watchOk : Bool)
    (s : TrackingState) : TrackingState :=
  if s.isTracking then s
  else
    let res := requestPermissions env s.store
    if ¬ res.1 then { s with store := res.2 }
    else
      let store2 := clearRoute res.2
      if watchOk then
        { store := setGPSError none store2, isTracking := true
          hasSubscription := true
          subscriptionsCreated := s.subscriptionsCreated + 1
          lastPoint := s.lastPoint }
      else
        { s with
          store := setGPSError (some "Failed to start GPS tracking") store2
          isTracking := false }

/-- `stopTracking` from `src/hooks/useStrava.ts` (the subscription's
`remove()` is modelled as non-throwing). -/
def stopTracking (s : TrackingState) : TrackingState :=
  if ¬ s.isTracking then s
  else
    { s with hasSubscription := false, isTracking := false, lastPoint := none }

/-- Feeding a sequence of `(now, fix)` location updates to the hook. -/
def runUpdates (updates : List (ℤ × LocationPoint)) (s : TrackingState) :
    TrackingState :=
  updates.foldl (fun st u => handleLocationUpdate u.1 u.2 st) s

/-- The total distance published in the latest metrics snapshot. -/
def publishedTotal (s : TrackingState) : ℝ :=
  s.store.gpsMetrics.totalDistance

/-- The hook state at app launch. -/
def initialTrackingState : TrackingState :=
  { store := initialState, isTracking := false, hasSubscription := false
    subscriptionsCreated := 0, lastPoint := none }

theorem handleLocationUpdate_routePoints (now : ℤ) (p : LocationPoint)
    (s : TrackingState) :
    (handleLocationUpdate now p s).store.routePoints =
      s.store.routePoints ++ [p] := rfl

theorem handleLocationUpdate_publishedTotal (now : ℤ) (p : LocationPoint)
    (s : TrackingState) :
    publishedTotal (handleLocationUpdate now p s) =
      pairSum (s.store.routePoints ++ [p]) := by
  show calculateTotalDistance ((s.store.routePoints ++ [p]) ++ [p]) = _
  rw [calculateTotalDistance_eq_pairSum, pairSum_concat_last]

theorem runUpdates_nil (s : TrackingState) : runUpdates [] s = s := rfl

theorem runUpdates_cons (u : ℤ × LocationPoint) (us : List (ℤ × LocationPoint))
    (s : TrackingState) :
    runUpdates (u :: us) s = runUpdates us (handleLocationUpdate u.1 u.2 s) := rfl

theorem runUpdates_routePoints (us : List (ℤ × LocationPoint)) (s : TrackingState) :
    (runUpdates us s).store.routePoints =
      s.store.routePoints ++ us.map Prod.snd := by
  induction us generalizing s with
  | nil => simp [runUpdates_nil]
  | cons u us ih =>
    rw [runUpdates_cons, ih, handleLocationUpdate_routePoints]
    simp

theorem runUpdates_publishedTotal_ne_nil (us : List (ℤ × LocationPoint))
    (hne : us ≠ []) (s : TrackingState) :
    publishedTotal (runUpdates us s) =
      pairSum (s.store.routePoints ++ us.map Prod.snd) := by
  induction us generalizing s with
  | nil => exact absurd rfl hne
  | cons u us ih =>
    rcases us with _ | ⟨v, vs⟩
    · rw [runUpdates_cons, runUpdates_nil, handleLocationUpdate_publishedTotal]
      simp
    · rw [runUpdates_cons, ih (by simp) (handleLocationUpdate u.1 u.2 s),
        handleLocationUpdate_routePoints]
      simp

theorem startTracking_granted (s0 : TrackingState) (h0 : s0.isTracking = false) :
    (startTracking PermissionOutcome.granted true s0).store.routePoints = [] ∧
    (startTracking PermissionOutcome.granted true s0).store.gpsMetrics =
      zeroMetrics := by
  simp [startTracking, h0, requestPermissions, clearRoute, setGPSError,
    setLocationPermission]

theorem runUpdates_publishedTotal_start (s0 : TrackingState)
    (h0 : s0.isTracking = false) (us : List (ℤ × LocationPoint)) :
    publishedTotal
        (runUpdates us (startTracking PermissionOutcome.granted true s0)) =
      pairSum (us.map Prod.snd) := by
  rcases us with _ | ⟨u, us⟩
  · rw [runUpdates_nil]
    show (startTracking PermissionOutcome.granted true s0).store.gpsMetrics.totalDistance = _
    rw [(startTracking_granted s0 h0).2]
    rfl
  · rw [runUpdates_publishedTotal_ne_nil _ (by simp),
      (startTracking_granted s0 h0).1]
    simp

/-- Modelled from the spec: the preferred O(1)-incremental distance
implementation, carrying only "last fix" and "cumulative distance" as state
(spec §9: "an incremental running-sum updated with each new fix").  One step
of the running sum. -/
def incrementalStep : Option LocationPoint × ℝ → LocationPoint →
    Option LocationPoint × ℝ
  | (none, acc), p => (some p, acc)
  | (some q, acc), p => (some p, acc + calculateDistance q p)

/-- Modelled from the spec: the O(1)-incremental running sum over a whole
route, for comparison with the source's O(n) `calculateTotalDistance`. -/
def incrementalTotal (points : List LocationPoint) : ℝ :=
  (points.foldl incrementalStep (none, 0)).2

theorem foldl_incrementalStep_some (l : List LocationPoint)
    (q : LocationPoint) (acc : ℝ) :
    (l.foldl incrementalStep (some q, acc)).2 = acc + pairSum (q :: l) := by
  induction l generalizing q acc with
  | nil => simp [pairSum]
  | cons p l ih =>
    rw [List.foldl_cons]
    show (l.foldl incrementalStep (some p, acc + calculateDistance q p)).2 = _
    rw [ih, pairSum_cons_cons]
    ring

theorem incrementalTotal_eq_calculateTotalDistance (points : List LocationPoint) :
    incrementalTotal points = calculateTotalDistance points := by
  rw [calculateTotalDistance_eq_pairSum]
  cases points with
  | nil => rfl
  | cons p l =>
    rw [incrementalTotal, List.foldl_cons]
    show (l.foldl incrementalStep (some p, 0)).2 = _
    rw [foldl_incrementalStep_some]
    ring

theorem dist_equator_one_degree :
    calculateDistance { latitude := 0, longitude := 0 }
      { latitude := 0, longitude := 1 } = 6371e3 * (2 * (Real.pi / 360)) := by
  have hpi := Real.pi_pos
  have hθpos : 0 < Real.pi / 360 := by positivity
  have hθlt : Real.pi / 360 < Real.pi / 2 := by linarith
  have hsin : 0 ≤ Real.sin (Real.pi / 360) :=
    Real.sin_nonneg_of_nonneg_of_le_pi hθpos.le (by linarith)
  have hcos : 0 < Real.cos (Real.pi / 360) :=
    Real.cos_pos_of_mem_Ioo ⟨by linarith, hθlt⟩
  have hsq : 1 - Real.sin (Real.pi / 360) * Real.sin (Real.pi / 360) =
      Real.cos (Real.pi / 360) * Real.cos (Real.pi / 360) := by
    have h := Real.sin_sq_add_cos_sq (Real.pi / 360)
    rw [pow_two, pow_two] at h
    linarith
  have harg : ((1 : ℝ) - 0) * Real.pi / 180 / 2 = Real.pi / 360 := by ring
  have harg2 : Real.pi / 180 / 2 = Real.pi / 360 := by ring
  simp only [calculateDistance]
  norm_num [harg, harg2, hsq, Real.sqrt_mul_self hsin, Real.sqrt_mul_self hcos.le]
  rw [atan2, if_pos hcos, ← Real.tan_eq_sin_div_cos,
    Real.arctan_tan (by linarith) hθlt]

/-- A tracking state in which a session is active: the result of a granted
`startTracking` from the launch state.  Used to instantiate theorems that
assume an active session. -/
def activeTrackingState : TrackingState :=
  startTracking PermissionOutcome.granted true initialTrackingState

/-- C1: after each fix beyond the first, the published total distance equals
the previously published total plus the Haversine distance from the previous
fix to the new one; and the O(n) full recomputation `calculateTotalDistance`
agrees (exactly, in the real-number model) with the O(1) incremental running
sum `incrementalTotal`. -/
theorem C1_incremental_distance (s0 : TrackingState)
    (h0 : s0.isTracking = false) (pre : List (ℤ × LocationPoint))
    (v u : ℤ × LocationPoint) :
    publishedTotal (runUpdates ((pre ++ [v]) ++ [u])
        (startTracking PermissionOutcome.granted true s0)) =
      publishedTotal (runUpdates (pre ++ [v])
          (startTracking PermissionOutcome.granted true s0)) +
        calculateDistance v.2 u.2 ∧
    (∀ pts : List LocationPoint,
      incrementalTotal pts = calculateTotalDistance pts) := by
  constructor
  · rw [runUpdates_publishedTotal_start s0 h0,
      runUpdates_publishedTotal_start s0 h0]
    simp only [List.map_append, List.map_cons, List.map_nil]
    rw [pairSum_append]
    simp [List.getLast?_concat]
  · exact incrementalTotal_eq_calculateTotalDistance

theorem C1_incremental_distance_witness :
    publishedTotal (runUpdates
        (([] ++ [((0 : ℤ), ({ latitude := 0, longitude := 0 } : LocationPoint))]) ++
          [((5000 : ℤ), ({ latitude := 0, longitude := 1 } : LocationPoint))])
        (startTracking PermissionOutcome.granted true initialTrackingState)) =
      publishedTotal (runUpdates
          ([] ++ [((0 : ℤ), ({ latitude := 0, longitude := 0 } : LocationPoint))])
          (startTracking PermissionOutcome.granted true initialTrackingState)) +
        calculateDistance { latitude := 0, longitude := 0 }
          { latitude := 0, longitude := 1 } :=
  (C1_incremental_distance initialTrackingState rfl []
    ((0 : ℤ), ({ latitude := 0, longitude := 0 } : LocationPoint))
    ((5000 : ℤ), ({ latitude := 0, longitude := 1 } : LocationPoint))).1

/-- C2: for any sequence of fixes fed to a freshly started session, the
published total distance is non-negative and non-decreasing with each
further location update. -/
theorem C2_total_distance_monotone (s0 : TrackingState)
    (h0 : s0.isTracking = false) (fixes : List (ℤ × LocationPoint))
    (u : ℤ × LocationPoint) :
    0 ≤ publishedTotal (runUpdates (fixes ++ [u])
        (startTracking PermissionOutcome.granted true s0)) ∧
    publishedTotal (runUpdates fixes
        (startTracking PermissionOutcome.granted true s0)) ≤
      publishedTotal (runUpdates (fixes ++ [u])
        (startTracking PermissionOutcome.granted true s0)) := by
  rw [runUpdates_publishedTotal_start s0 h0,
    runUpdates_publishedTotal_start s0 h0]
  simp only [List.map_append, List.map_cons, List.map_nil]
  exact ⟨pairSum_nonneg _, pairSum_le_append _ _⟩

theorem C2_total_distance_monotone_witness :
    0 ≤ publishedTotal (runUpdates
        ([] ++ [((0 : ℤ), ({ latitude := 0, longitude := 0 } : LocationPoint))])
        (startTracking PermissionOutcome.granted true initialTrackingState)) ∧
    publishedTotal (runUpdates []
        (startTracking PermissionOutcome.granted true initialTrackingState)) ≤
      publishedTotal (runUpdates
        ([] ++ [((0 : ℤ), ({ latitude := 0, longitude := 0 } : LocationPoint))])
        (startTracking PermissionOutcome.granted true initialTrackingState)) :=
  C2_total_distance_monotone initialTrackingState rfl []
    ((0 : ℤ), ({ latitude := 0, longitude := 0 } : LocationPoint))

/-- C3: when the permission gate denies (location services disabled, OS
denial, or a thrown error), `startTracking` records an error and the denied
permission status, stays non-tracking, and performs no subscription side
effect. -/
theorem C3_denied_no_subscription (env : PermissionOutcome)
    (henv : env ≠ PermissionOutcome.granted) (w : Bool) (s0 : TrackingState)
    (h0 : s0.isTracking = false) :
    (startTracking env w s0).store.gpsError.isSome = true ∧
    (startTracking env w s0).store.locationPermission =
      LocationPermissionStatus.denied ∧
    (startTracking env w s0).subscriptionsCreated = s0.subscriptionsCreated ∧
    (startTracking env w s0).hasSubscription = s0.hasSubscription ∧
    (startTracking env w s0).isTracking = false := by
  cases env with
  | granted => exact absurd rfl henv
  | servicesDisabled =>
    simp [startTracking, h0, requestPermissions, setGPSError,
      setLocationPermission]
  | denied c =>
    simp [startTracking, h0, requestPermissions, setGPSError,
      setLocationPermission]
  | requestThrows =>
    simp [startTracking, h0, requestPermissions, setGPSError,
      setLocationPermission]

theorem C3_denied_no_subscription_witness :
    (startTracking PermissionOutcome.servicesDisabled true
        initialTrackingState).store.gpsError.isSome = true ∧
    (startTracking PermissionOutcome.servicesDisabled true
        initialTrackingState).store.locationPermission =
      LocationPermissionStatus.denied ∧
    (startTracking PermissionOutcome.servicesDisabled true
        initialTrackingState).subscriptionsCreated =
      initialTrackingState.subscriptionsCreated ∧
    (startTracking PermissionOutcome.servicesDisabled true
        initialTrackingState).hasSubscription =
      initialTrackingState.hasSubscription ∧
    (startTracking PermissionOutcome.servicesDisabled true
        initialTrackingState).isTracking = false :=
  C3_denied_no_subscription PermissionOutcome.servicesDisabled (by decide)
    true initialTrackingState rfl

/-- C4: `startTracking` while already tracking is a no-op: the entire state
is unchanged, so no second subscription is created and the in-progress route
and metrics are not cleared. -/
theorem C4_start_idempotent (env : PermissionOutcome) (w : Bool)
    (s : TrackingState) (h : s.isTracking = true) :
    startTracking env w s = s := by
  simp [startTracking, h]

theorem C4_start_idempotent_witness :
    startTracking PermissionOutcome.granted true activeTrackingState =
      activeTrackingState :=
  C4_start_idempotent PermissionOutcome.granted true activeTrackingState rfl

/-- C5: `stopTracking` leaves the whole store — in particular the route
points and the last published metrics snapshot — unchanged, clearing only
the subscription and tracking refs; and the next granted `startTracking`,
before any new fix, resets the route to empty and the metrics snapshot to
all-zero. -/
theorem C5_stop_frame_start_resets (s : TrackingState)
    (h : s.isTracking = true) :
    (stopTracking s).store = s.store ∧
    (stopTracking s).isTracking = false ∧
    (stopTracking s).hasSubscription = false ∧
    (stopTracking s).lastPoint = none ∧
    (startTracking PermissionOutcome.granted true
        (stopTracking s)).store.routePoints = [] ∧
    (startTracking PermissionOutcome.granted true
        (stopTracking s)).store.gpsMetrics = zeroMetrics := by
  have h2 : (stopTracking s).isTracking = false := by simp [stopTracking, h]
  refine ⟨?_, h2, ?_, ?_, (startTracking_granted _ h2).1,
    (startTracking_granted _ h2).2⟩ <;> simp [stopTracking, h]

theorem C5_stop_frame_start_resets_witness :
    (stopTracking activeTrackingState).store = activeTrackingState.store ∧
    (stopTracking activeTrackingState).isTracking = false ∧
    (stopTracking activeTrackingState).hasSubscription = false ∧
    (stopTracking activeTrackingState).lastPoint = none ∧
    (startTracking PermissionOutcome.granted true
        (stopTracking activeTrackingState)).store.routePoints = [] ∧
    (startTracking PermissionOutcome.granted true
        (stopTracking activeTrackingState)).store.gpsMetrics = zeroMetrics :=
  C5_stop_frame_start_resets activeTrackingState rfl

/-- C6: `calculatePace` returns the undefined-pace sentinel (the value `0`)
for every speed ≤ 0 — in particular at inputs `0` and `-5` — and returns
`60 / (speed * 3.6)` for every positive speed.  (Non-finite floating-point
inputs have no counterpart in the real-number model.) -/
theorem C6_pace_sentinel :
    (∀ s : ℝ, s ≤ 0 → calculatePace s = paceUndefined) ∧
    calculatePace 0 = paceUndefined ∧
    calculatePace (-5) = paceUndefined ∧
    (∀ s : ℝ, 0 < s → calculatePace s = 60 / (s * 3.6)) := by
  refine ⟨fun s hs => ?_, ?_, ?_, fun s hs => ?_⟩
  · rw [calculatePace, if_pos hs]; rfl
  · rw [calculatePace, if_pos le_rfl]; rfl
  · rw [calculatePace, if_pos (by norm_num)]; rfl
  · rw [calculatePace, if_neg (not_le.mpr hs)]

theorem C6_pace_sentinel_witness :
    calculatePace (-2) = paceUndefined ∧ calculatePace 2 = 60 / (2 * 3.6) :=
  ⟨C6_pace_sentinel.1 (-2) (by norm_num),
    C6_pace_sentinel.2.2.2 2 (by norm_num)⟩

/-- C7: after exactly one fix has been processed in a freshly started
session, the published total distance is `0`. -/
theorem C7_first_fix_zero (s0 : TrackingState) (h0 : s0.isTracking = false)
    (t : ℤ) (p : LocationPoint) :
    publishedTotal (runUpdates [(t, p)]
      (startTracking PermissionOutcome.granted true s0)) = 0 := by
  rw [runUpdates_publishedTotal_start s0 h0]
  simp [pairSum]

theorem C7_first_fix_zero_witness :
    publishedTotal (runUpdates
        [((0 : ℤ), ({ latitude := 0, longitude := 0 } : LocationPoint))]
        (startTracking PermissionOutcome.granted true initialTrackingState)) =
      0 :=
  C7_first_fix_zero initialTrackingState rfl 0
    { latitude := 0, longitude := 0 }

/-- C8: `calculateAverageMetrics` equals distance/elapsed converted to km/h
paired with `60 / avgSpeedKmh` (with `x / 0 = 0` in the real-number model),
both `0` when the elapsed time is `0`; and every location update publishes
exactly these averages of the cumulative distance and the elapsed seconds. -/
theorem C8_average_metrics (pts : List LocationPoint) (d t : ℝ) (now : ℤ)
    (p : LocationPoint) (s : TrackingState) :
    calculateAverageMetrics pts d t =
      (if t = 0 then 0 else d / t * 3.6,
        if t = 0 then 0 else 60 / (d / t * 3.6)) ∧
    ((handleLocationUpdate now p s).store.gpsMetrics.averageSpeed,
        (handleLocationUpdate now p s).store.gpsMetrics.averagePace) =
      calculateAverageMetrics ((s.store.routePoints ++ [p]) ++ [p])
        (publishedTotal (handleLocationUpdate now p s))
        ((elapsedSeconds now s.store.runStartTime : ℤ) : ℝ) := by
  constructor
  · rw [calculateAverageMetrics]
    by_cases ht : t = 0
    · simp [ht]
    · by_cases hd : d = 0
      · simp [ht, hd]
      · simp [ht, hd]
  · rfl

/-- C9: the pairwise distance is the Haversine great-circle distance with
Earth radius 6,371,000 m: it vanishes on equal points, and one degree of
longitude at the equator measures 111,195 m to within ±1%. -/
theorem C9_haversine_correct :
    (∀ p : LocationPoint, calculateDistance p p = 0) ∧
    |calculateDistance { latitude := 0, longitude := 0 }
        { latitude := 0, longitude := 1 } - 111195| ≤ (1 / 100) * 111195 := by
  refine ⟨calculateDistance_self, ?_⟩
  rw [dist_equator_one_degree, abs_le]
  have hlo := Real.pi_gt_d6
  have hhi := Real.pi_lt_d6
  constructor <;> nlinarith

/-- C10: `handleLocationUpdate` sums over a list in which the newest point
occurs twice, but the duplicated adjacent point contributes zero distance,
so the published total equals the pairwise Haversine sum over the distinct
fixes received so far. -/
theorem C10_duplicate_point_harmless (s0 : TrackingState)
    (h0 : s0.isTracking = false) (fixes : List (ℤ × LocationPoint)) :
    (∀ (pts : List LocationPoint) (p : LocationPoint),
      calculateTotalDistance ((pts ++ [p]) ++ [p]) =
        calculateTotalDistance (pts ++ [p])) ∧
    publishedTotal (runUpdates fixes
        (startTracking PermissionOutcome.granted true s0)) =
      calculateTotalDistance (fixes.map Prod.snd) := by
  constructor
  · intro pts p
    rw [calculateTotalDistance_eq_pairSum, calculateTotalDistance_eq_pairSum,
      pairSum_concat_last]
  · rw [runUpdates_publishedTotal_start s0 h0,
      calculateTotalDistance_eq_pairSum]

theorem C10_duplicate_point_harmless_witness :
    (∀ (pts : List LocationPoint) (p : LocationPoint),
      calculateTotalDistance ((pts ++ [p]) ++ [p]) =
        calculateTotalDistance (pts ++ [p])) ∧
    publishedTotal (runUpdates
        [((0 : ℤ), ({ latitude := 0, longitude := 0 } : LocationPoint))]
        (startTracking PermissionOutcome.granted true initialTrackingState)) =
      calculateTotalDistance
        ([((0 : ℤ), ({ latitude := 0, longitude := 0 } : LocationPoint))].map
          Prod.snd) :=
  C10_duplicate_point_harmless initialTrackingState rfl
    [((0 : ℤ), ({ latitude := 0, longitude := 0 } : LocationPoint))]

end Runna

